import Mathlib

/-!
Shallow embedding of the Image Info Extractor pipeline: the detection and
explanation service wrappers, the page rasterizer front end, the client-side
crop loop, and the scan-session state transitions, together with theorems
checking the specification claims against these definitions.
-/

/-! ## JSON values and a model of JSON.parse

The detection service returns `response.text` and the source runs it through
`JSON.parse` with no further validation.  `Json` models the parsed value and
`jsonParse` models `JSON.parse` on the JSON fragment the program exercises
(null, booleans, integer numerals, escape-free strings, arrays, objects);
outside that fragment the model reports a parse error, matching the throwing
behaviour of `JSON.parse` on malformed input. -/

inductive Json where
  | null
  | bool (b : Bool)
  | num (n : Int)
  | str (s : String)
  | arr (elems : List Json)
  | obj (fields : List (String × Json))

/-- Whitespace skipping, as JSON.parse accepts blanks between tokens. -/
def skipWs : List Char → List Char
  | c :: cs =>
      if c = ' ' ∨ c = '\n' ∨ c = '\t' ∨ c = '\r' then skipWs cs else c :: cs
  | [] => []

/-- Scans the body of a string literal up to the closing quote.  Escape
sequences are outside the modelled fragment. -/
def spanStringLit : List Char → Option (List Char × List Char)
  | [] => none
  | c :: cs =>
      if c = '"' then some ([], cs)
      else if c = '\\' then none
      else
        match spanStringLit cs with
        | some (s, rest) => some (c :: s, rest)
        | none => none

/-- Splits a leading run of decimal digits from the input. -/
def takeDigits : List Char → List Char × List Char
  | [] => ([], [])
  | c :: cs =>
      if c.isDigit then
        match takeDigits cs with
        | (ds, rest) => (c :: ds, rest)
      else ([], c :: cs)

/-- Numeric value of a digit run. -/
def digitsToNat (ds : List Char) : Nat :=
  ds.foldl (fun a c => a * 10 + (c.toNat - 48)) 0

/-- Intermediate result of the recursive-descent parser: a single value, a
run of array elements, or a run of object members. -/
inductive JsonPart where
  | val (j : Json)
  | elems (xs : List Json)
  | members (fields : List (String × Json))

/-- Parsing mode selecting which grammar production to read next. -/
inductive PMode where
  | value
  | elems
  | members

/-- Fuel-indexed recursive-descent parser for the modelled JSON fragment. -/
def parseJ : Nat → PMode → List Char → Except Unit (JsonPart × List Char)
  | 0, _, _ => .error ()
  | fuel + 1, .value, cs =>
    match skipWs cs with
    | 'n' :: 'u' :: 'l' :: 'l' :: rest => .ok (.val .null, rest)
    | 't' :: 'r' :: 'u' :: 'e' :: rest => .ok (.val (.bool true), rest)
    | 'f' :: 'a' :: 'l' :: 's' :: 'e' :: rest => .ok (.val (.bool false), rest)
    | '"' :: rest =>
      (match spanStringLit rest with
       | some (s, rest2) => .ok (.val (.str (String.mk s)), rest2)
       | none => .error ())
    | '[' :: rest =>
      (match skipWs rest with
       | ']' :: rest2 => .ok (.val (.arr []), rest2)
       | rest2 =>
         match parseJ fuel .elems rest2 with
         | .ok (.elems xs, rest3) => .ok (.val (.arr xs), rest3)
         | _ => .error ())
    | '{' :: rest =>
      (match skipWs rest with
       | '}' :: rest2 => .ok (.val (.obj []), rest2)
       | rest2 =>
         match parseJ fuel .members rest2 with
         | .ok (.members fs, rest3) => .ok (.val (.obj fs), rest3)
         | _ => .error ())
    | '-' :: rest =>
      (match takeDigits rest with
       | ([], _) => .error ()
       | (ds, rest2) => .ok (.val (.num (-(digitsToNat ds : Int))), rest2))
    | c :: rest =>
      if c.isDigit then
        match takeDigits (c :: rest) with
        | (ds, rest2) => .ok (.val (.num (digitsToNat ds : Int)), rest2)
      else .error ()
    | [] => .error ()
  | fuel + 1, .elems, cs =>
    match parseJ fuel .value cs with
    | .ok (.val v, rest) =>
      (match skipWs rest with
       | ',' :: rest2 =>
         (match parseJ fuel .elems rest2 with
          | .ok (.elems xs, rest3) => .ok (.elems (v :: xs), rest3)
          | _ => .error ())
       | ']' :: rest2 => .ok (.elems [v], rest2)
       | _ => .error ())
    | _ => .error ()
  | fuel + 1, .members, cs =>
    match skipWs cs with
    | '"' :: rest =>
      (match spanStringLit rest with
       | none => .error ()
       | some (key, rest2) =>
         match skipWs rest2 with
         | ':' :: rest3 =>
           (match parseJ fuel .value rest3 with
            | .ok (.val v, rest4) =>
              (match skipWs rest4 with
               | ',' :: rest5 =>
                 (match parseJ fuel .members rest5 with
                  | .ok (.members ms, rest6) =>
                      .ok (.members ((String.mk key, v) :: ms), rest6)
                  | _ => .error ())
               | '}' :: rest5 => .ok (.members [(String.mk key, v)], rest5)
               | _ => .error ())
            | _ => .error ())
         | _ => .error ())
    | _ => .error ()

/-- Model of JSON.parse: parse one value and require only trailing
whitespace; a syntax error is reported as `Except.error`, matching the
exception JSON.parse throws on malformed text. -/
def jsonParse (s : String) : Except Unit Json :=
  match parseJ (2 * s.length + 2) .value s.data with
  | .ok (.val v, rest) =>
    (match skipWs rest with
     | [] => .ok v
     | _ => .error ())
  | _ => .error ()

/-! ## Detection and explanation service wrappers (source: services, part_000)

The remote call itself is an external collaborator; its observable outcome is
either a thrown error (`Except.error`) or a response whose `text` field is an
optional string.  The wrappers below are transcribed from
`detectVisualElements` and `explainExtractedImage`. -/

/-- Embeds `detectVisualElements`: on a thrown remote error the catch block
returns `[]`; on missing or empty `response.text` it returns `[]`; otherwise
the text is passed to `JSON.parse` and the parsed value is returned as-is
(a parse exception lands in the same catch block and yields `[]`).  The
returned value is whatever JSON parsed; the source performs no schema check. -/
def detectVisualElements (call : Except Unit (Option String)) : Json :=
  match call with
  | .error _ => .arr []
  | .ok none => .arr []
  | .ok (some text) =>
      if text = "" then .arr []
      else
        match jsonParse text with
        | .error _ => .arr []
        | .ok j => j

/-- Looks up a field of a JSON object, first match wins. -/
def lookupField (fields : List (String × Json)) (key : String) : Option Json :=
  match fields with
  | [] => none
  | (k, v) :: rest => if k = key then some v else lookupField rest key

/-- Recognizes a JSON number. -/
def isNumberJson : Json → Bool
  | .num _ => true
  | _ => false

/-- Modelled from the spec: the required response schema for one detection,
an object with string `label`, `box_2d` an array of four numbers, and string
`description`.  Stated from the specification words for comparison; the
source performs no such validation. -/
def isValidDetection (j : Json) : Bool :=
  match j with
  | .obj fields =>
      (match lookupField fields "label" with
       | some (.str _) => true
       | _ => false)
      && (match lookupField fields "box_2d" with
          | some (.arr xs) => xs.length = 4 && xs.all isNumberJson
          | _ => false)
      && (match lookupField fields "description" with
          | some (.str _) => true
          | _ => false)
  | _ => false

/-- Modelled from the spec: the required schema for the whole response, an
array of valid detections. -/
def isValidDetectionList (j : Json) : Bool :=
  match j with
  | .arr xs => xs.all isValidDetection
  | _ => false

/-- Embeds `explainExtractedImage`: the catch block converts a thrown remote
error into the fixed string "Error generating explanation."; a missing or
empty `response.text` falls through `text || fallback` to the fixed string
"No explanation could be generated."; otherwise the text is returned.  The
image payload and label feed only the prompt, never the fallback. -/
def explainExtractedImage (imageBase64 label : String)
    (call : Except Unit (Option String)) : String :=
  match call with
  | .error _ => "Error generating explanation."
  | .ok none => "No explanation could be generated."
  | .ok (some text) =>
      if text = "" then "No explanation could be generated." else text

/-! ## Region extraction (source: App, part_001, handleScan crop loop)

The crop loop reads the page raster dimensions `img.width`/`img.height`,
computes one crop rectangle per detection from its normalized box, resizes
the canvas to that rectangle, and issues
`drawImage(img, left, top, width, height, 0, 0, width, height)` before
encoding the canvas.  Coordinates are JS numbers; they are modelled as exact
rationals. -/

/-- Normalized bounding box in detector order (ymin, xmin, ymax, xmax), each
coordinate on the 0-1000 scale. -/
structure NormalizedBox where
  ymin : ℚ
  xmin : ℚ
  ymax : ℚ
  xmax : ℚ
deriving DecidableEq

/-- One detection as typed by the source: label, box, description. -/
structure VisualElement where
  label : String
  box_2d : NormalizedBox
  description : String
deriving DecidableEq

/-- Arguments of the `drawImage` call: source rectangle (sx, sy, sw, sh) on
the page raster and destination rectangle (dx, dy, dw, dh) on the crop
canvas. -/
structure DrawCall where
  sx : ℚ
  sy : ℚ
  sw : ℚ
  sh : ℚ
  dx : ℚ
  dy : ℚ
  dw : ℚ
  dh : ℚ
deriving DecidableEq

/-- The encoded crop is determined by the canvas dimensions assigned before
drawing and by the single draw call that fills it (the canvas is cleared over
the same rectangle first), all applied to the fixed page raster. -/
structure Crop where
  canvasWidth : ℚ
  canvasHeight : ℚ
  draw : DrawCall
deriving DecidableEq

/-- One extracted item as pushed by the crop loop. -/
structure ExtractedItem where
  id : String
  label : String
  dataUrl : Crop
  description : String
deriving DecidableEq

/-- Embeds the body of the crop loop for one detection: the coordinate
conversion from the normalized box to pixel space, the canvas resize, and the
draw call with identical source and destination rectangle sizes. -/
def cropDetection (imgWidth imgHeight : ℚ) (det : VisualElement) : Crop :=
  let left := det.box_2d.xmin / 1000 * imgWidth
  let top := det.box_2d.ymin / 1000 * imgHeight
  let width := (det.box_2d.xmax - det.box_2d.xmin) / 1000 * imgWidth
  let height := (det.box_2d.ymax - det.box_2d.ymin) / 1000 * imgHeight
  { canvasWidth := width
    canvasHeight := height
    draw :=
      { sx := left, sy := top, sw := width, sh := height
        dx := 0, dy := 0, dw := width, dh := height } }

/-- Embeds the crop loop from position `i` on: each detection yields exactly
one pushed item carrying a fresh id (`crypto.randomUUID`, modelled by the
oracle `gen` applied to the loop position), the detection label and
description, and the encoded crop. -/
def extractAllFrom (gen : Nat → String) (imgWidth imgHeight : ℚ) :
    Nat → List VisualElement → List ExtractedItem
  | _, [] => []
  | i, det :: rest =>
      { id := gen i
        label := det.label
        dataUrl := cropDetection imgWidth imgHeight det
        description := det.description }
        :: extractAllFrom gen imgWidth imgHeight (i + 1) rest

/-- The whole crop loop over a detection list. -/
def extractAll (gen : Nat → String) (imgWidth imgHeight : ℚ)
    (detections : List VisualElement) : List ExtractedItem :=
  extractAllFrom gen imgWidth imgHeight 0 detections

/-- Modelled from the spec: the crop rectangle
(left, top, width, height) as written in the specification formulas, for
comparison with the rectangle the code computes. -/
def specCropRect (pageWidth pageHeight : ℚ) (b : NormalizedBox) :
    ℚ × ℚ × ℚ × ℚ :=
  (b.xmin / 1000 * pageWidth,
   b.ymin / 1000 * pageHeight,
   (b.xmax - b.xmin) / 1000 * pageWidth,
   (b.ymax - b.ymin) / 1000 * pageHeight)

/-! ## Page rasterization front end (source: App, part_001, getPageImage) -/

/-- The inputs of `getPageImage` that decide its control flow: the MIME type
of the uploaded file and, for paginated documents, the page count reported by
the render engine. -/
structure InputFile where
  fileType : String
  pageCount : Int
deriving DecidableEq

/-- Which page image `getPageImage` resolves to: the raster image itself via
FileReader, or one rendered page of the paginated document (at scale 2.0,
encoded as JPEG at quality 0.95). -/
inductive PageImageSource where
  | imageData
  | pdfPage (page : Int)
deriving DecidableEq

/-- Checks whether the second character list starts the first one; executable
model of the string startsWith test used on the MIME type. -/
def listPrefixOf : List Char → List Char → Bool
  | [], _ => true
  | _ :: _, [] => false
  | c :: cs, d :: ds => c = d && listPrefixOf cs ds

/-- Model of `String.startsWith` over the underlying character lists. -/
def strStartsWith (s pre : String) : Bool :=
  listPrefixOf pre.data s.data

/-- Embeds `getPageImage`: image files take the FileReader branch and never
touch the page number; otherwise a missing pdf library throws, and the page
number is clamped by `Math.min(Math.max(1, pageNum), pageCount)` before
rendering. -/
def getPageImage (pdfjsAvailable : Bool) (file : InputFile) (pageNum : Int) :
    Except Unit PageImageSource :=
  if strStartsWith file.fileType "image/" then .ok .imageData
  else if pdfjsAvailable then
    .ok (.pdfPage (min (max 1 pageNum) file.pageCount))
  else .error ()

/-! ## Scan session state (source: App, part_001, handleScan and handleReset)

The React state of the App component is one record; `handleScan` performs a
fixed sequence of state updates around the awaited rasterization and
detection results.  Rasterization and detection are external collaborators,
so their outcomes enter the model as parameters: `raster` is the result of
awaiting `getPageImage` (a page data URL or a thrown error) and `detections`
is the awaited, well-typed detection list.  `handleScanTrace` lists the state
after each individual update in source order; `handleScan` returns the final
state plus the alert message shown, if any. -/

/-- The four React state fields of the App component. -/
structure ScanState where
  isGenerating : Bool
  originalImage : Option String
  extractedItems : List ExtractedItem
  showPreview : Bool
deriving DecidableEq

/-- Result of one `handleScan` invocation: final state and the alert shown. -/
structure ScanResult where
  final : ScanState
  alert : Option String
deriving DecidableEq

/-- The generic failure notice shown by the catch block. -/
def extractionFailedNotice : String :=
  "Extraction failed. Check the console for details."

/-- Embeds `handleScan` as a big-step state transition.  With no file it
returns at once.  Otherwise it sets the loading flag, shows the preview, and
clears the item list; a rasterization failure is caught, alerts the generic
notice, hides the preview, and (in the finally block) clears the loading
flag; on success the page image is stored, the crop loop runs, the items are
published, and the loading flag is cleared. -/
def handleScan (s : ScanState) (_pageNumber : Int) (file : Option InputFile)
    (raster : Except Unit String) (imgWidth imgHeight : ℚ)
    (detections : List VisualElement) (gen : Nat → String) : ScanResult :=
  match file with
  | none => { final := s, alert := none }
  | some _ =>
      let s1 : ScanState :=
        { s with isGenerating := true, showPreview := true,
                 extractedItems := [] }
      match raster with
      | .error _ =>
          { final := { s1 with showPreview := false, isGenerating := false }
            alert := some extractionFailedNotice }
      | .ok pageDataUrl =>
          let s2 := { s1 with originalImage := some pageDataUrl }
          let items := extractAll gen imgWidth imgHeight detections
          { final := { s2 with extractedItems := items, isGenerating := false }
            alert := none }

/-- Every intermediate state of one `handleScan` run, one entry per state
update in source order (empty when no file is supplied and the handler
returns without touching state). -/
def handleScanTrace (s : ScanState) (_pageNumber : Int)
    (file : Option InputFile) (raster : Except Unit String)
    (imgWidth imgHeight : ℚ) (detections : List VisualElement)
    (gen : Nat → String) : List ScanState :=
  match file with
  | none => []
  | some _ =>
      let sA := { s with isGenerating := true }
      let sB := { sA with showPreview := true }
      let sC := { sB with extractedItems := ([] : List ExtractedItem) }
      match raster with
      | .error _ =>
          let sD := { sC with showPreview := false }
          let sE := { sD with isGenerating := false }
          [sA, sB, sC, sD, sE]
      | .ok pageDataUrl =>
          let sD := { sC with originalImage := some pageDataUrl }
          let sE :=
            { sD with
                extractedItems := extractAll gen imgWidth imgHeight detections }
          let sF := { sE with isGenerating := false }
          [sA, sB, sC, sD, sE, sF]

/-- Embeds `handleReset`: all four state fields are cleared. -/
def handleReset (_s : ScanState) : ScanState :=
  { isGenerating := false, originalImage := none, extractedItems := []
    showPreview := false }

/-- Embeds the LivePreview content switch: while `isLoading` the component
renders the spinner and no item cards at all; otherwise it renders one card
per item. -/
def visibleItems (isLoading : Bool) (items : List ExtractedItem) :
    List ExtractedItem :=
  if isLoading then [] else items

/-! ## Concrete fixtures used by witnesses and counterexamples -/

/-- Detection fixture taken from the end-to-end scenario of the spec. -/
def sampleDet : VisualElement :=
  { label := "Bar Chart"
    box_2d := { ymin := 100, xmin := 200, ymax := 400, xmax := 800 }
    description := "A bar chart" }

/-- Detection fixture with a malformed box: xmax < xmin. -/
def malformedDet : VisualElement :=
  { label := "Figure"
    box_2d := { ymin := 0, xmin := 500, ymax := 100, xmax := 300 }
    description := "malformed box" }

/-- Detection fixture with a box malformed only in y: ymax < ymin while the
x coordinates are well ordered. -/
def malformedDetY : VisualElement :=
  { label := "Map"
    box_2d := { ymin := 600, xmin := 100, ymax := 200, xmax := 300 }
    description := "y-malformed box" }

/-- Paginated-document fixture with ten pages. -/
def samplePdfFile : InputFile :=
  { fileType := "application/pdf", pageCount := 10 }

/-- Leftover item fixture representing state from a previous scan. -/
def junkItem : ExtractedItem :=
  { id := "stale"
    label := "Old"
    dataUrl :=
      { canvasWidth := 1, canvasHeight := 1
        draw := { sx := 0, sy := 0, sw := 1, sh := 1
                  dx := 0, dy := 0, dw := 1, dh := 1 } }
    description := "leftover" }

/-- Session-state fixture holding a page image and an item from a previous
scan. -/
def stalePageState : ScanState :=
  { isGenerating := false, originalImage := some "previousPage"
    extractedItems := [junkItem], showPreview := true }

/-! ## Helper lemmas about the crop loop -/

theorem extractAllFrom_length (gen : Nat → String) (w h : ℚ) (i0 : Nat)
    (dets : List VisualElement) :
    (extractAllFrom gen w h i0 dets).length = dets.length := by
  induction dets generalizing i0 with
  | nil => rfl
  | cons d rest ih => simp [extractAllFrom, ih]

theorem extractAllFrom_map_label (gen : Nat → String) (w h : ℚ) (i0 : Nat)
    (dets : List VisualElement) :
    (extractAllFrom gen w h i0 dets).map (fun it => it.label)
      = dets.map (fun d => d.label) := by
  induction dets generalizing i0 with
  | nil => rfl
  | cons d rest ih => simp [extractAllFrom, ih]

theorem extractAllFrom_map_description (gen : Nat → String) (w h : ℚ)
    (i0 : Nat) (dets : List VisualElement) :
    (extractAllFrom gen w h i0 dets).map (fun it => it.description)
      = dets.map (fun d => d.description) := by
  induction dets generalizing i0 with
  | nil => rfl
  | cons d rest ih => simp [extractAllFrom, ih]

theorem extractAllFrom_map_dataUrl (gen : Nat → String) (w h : ℚ) (i0 : Nat)
    (dets : List VisualElement) :
    (extractAllFrom gen w h i0 dets).map (fun it => it.dataUrl)
      = dets.map (cropDetection w h) := by
  induction dets generalizing i0 with
  | nil => rfl
  | cons d rest ih => simp [extractAllFrom, ih]

theorem extractAllFrom_get (gen : Nat → String) (w h : ℚ)
    (dets : List VisualElement) (i0 i : Nat)
    (hi : i < (extractAllFrom gen w h i0 dets).length) (hd : i < dets.length) :
    (extractAllFrom gen w h i0 dets).get ⟨i, hi⟩ =
      { id := gen (i0 + i)
        label := (dets.get ⟨i, hd⟩).label
        dataUrl := cropDetection w h (dets.get ⟨i, hd⟩)
        description := (dets.get ⟨i, hd⟩).description } := by
  induction dets generalizing i0 i with
  | nil => exact absurd hd (Nat.not_lt_zero i)
  | cons d rest ih =>
    cases i with
    | zero => simp [extractAllFrom]
    | succ n =>
      have hd2 : n < rest.length := Nat.lt_of_succ_lt_succ hd
      have hi2 : n < (extractAllFrom gen w h (i0 + 1) rest).length := by
        rw [extractAllFrom_length]; exact hd2
      have hrec := ih (i0 + 1) n hi2 hd2
      have harith : i0 + 1 + n = i0 + (n + 1) := by omega
      rw [harith] at hrec
      exact hrec

/-! ## Claims about the region extraction step -/

/-- C1: for every detection and page raster dimensions, the extraction step
computes the crop rectangle exactly by the specification formulas
left = (xmin/1000)·pageWidth, top = (ymin/1000)·pageHeight,
width = ((xmax−xmin)/1000)·pageWidth, height = ((ymax−ymin)/1000)·pageHeight,
sizes the output canvas to (width, height), and fills it by one draw call
whose destination rectangle starts at the origin and has exactly the source
rectangle size, i.e. a 1:1 copy with no scaling. -/
theorem extraction_crop_formula (gen : Nat → String) (w h : ℚ)
    (dets : List VisualElement) :
    (extractAll gen w h dets).map (fun it => it.dataUrl)
        = dets.map (cropDetection w h)
    ∧ ∀ det : VisualElement,
        (cropDetection w h det).draw.sx = (specCropRect w h det.box_2d).1
        ∧ (cropDetection w h det).draw.sy = (specCropRect w h det.box_2d).2.1
        ∧ (cropDetection w h det).draw.sw = (specCropRect w h det.box_2d).2.2.1
        ∧ (cropDetection w h det).draw.sh = (specCropRect w h det.box_2d).2.2.2
        ∧ (cropDetection w h det).canvasWidth
            = (specCropRect w h det.box_2d).2.2.1
        ∧ (cropDetection w h det).canvasHeight
            = (specCropRect w h det.box_2d).2.2.2
        ∧ (cropDetection w h det).draw.dx = 0
        ∧ (cropDetection w h det).draw.dy = 0
        ∧ (cropDetection w h det).draw.dw = (cropDetection w h det).draw.sw
        ∧ (cropDetection w h det).draw.dh = (cropDetection w h det).draw.sh := by
  exact ⟨extractAllFrom_map_dataUrl gen w h 0 dets,
    fun det => ⟨rfl, rfl, rfl, rfl, rfl, rfl, rfl, rfl, rfl, rfl⟩⟩

/-- C3: extraction produces exactly one item per detection, in detection
order, with matching label and description at every index. -/
theorem extraction_order_preserving (gen : Nat → String) (w h : ℚ)
    (dets : List VisualElement) :
    (extractAll gen w h dets).length = dets.length
    ∧ (extractAll gen w h dets).map (fun it => it.label)
        = dets.map (fun d => d.label)
    ∧ (extractAll gen w h dets).map (fun it => it.description)
        = dets.map (fun d => d.description)
    ∧ ∀ (i : Nat) (hi : i < (extractAll gen w h dets).length)
        (hd : i < dets.length),
        ((extractAll gen w h dets).get ⟨i, hi⟩).label
            = (dets.get ⟨i, hd⟩).label
        ∧ ((extractAll gen w h dets).get ⟨i, hi⟩).description
            = (dets.get ⟨i, hd⟩).description := by
  refine ⟨extractAllFrom_length gen w h 0 dets,
    extractAllFrom_map_label gen w h 0 dets,
    extractAllFrom_map_description gen w h 0 dets,
    fun i hi hd => ?_⟩
  have hget := extractAllFrom_get gen w h dets 0 i hi hd
  unfold extractAll
  rw [hget]
  exact ⟨rfl, rfl⟩

/-- Witness for C3 at a concrete input: a singleton detection list yields one
item whose label and description match the detection. -/
theorem extraction_order_preserving_witness :
    ((extractAll (fun _ => "u") 800 600 [sampleDet]).get
        ⟨0, by decide⟩).label = "Bar Chart" :=
  ((extraction_order_preserving (fun _ => "u") 800 600 [sampleDet]).2.2.2
    0 (by decide) (by decide)).1

/-- C7: the crop loop is deterministic apart from the fresh item ids; the
crops it emits depend only on the page raster dimensions and the detections,
so two runs on identical inputs produce identical crops even though the id
oracle differs between runs. -/
theorem extraction_deterministic (gen1 gen2 : Nat → String) (w h : ℚ)
    (dets : List VisualElement) :
    (extractAll gen1 w h dets).map (fun it => it.dataUrl)
      = (extractAll gen2 w h dets).map (fun it => it.dataUrl) :=
  (extractAllFrom_map_dataUrl gen1 w h 0 dets).trans
    (extractAllFrom_map_dataUrl gen2 w h 0 dets).symm

/-- Counterexample for C2: the crop loop does not clamp malformed boxes.
A box with xmax < xmin yields the negative canvas width −200 and a box with
ymax < ymin yields the negative canvas height −320, both non-zero, so
neither crop is a zero-area clamp. -/
theorem extraction_no_zero_clamp_counterexample :
    ((extractAll (fun _ => "id") 1000 800 [malformedDet]).map
        (fun it => it.dataUrl.canvasWidth)) = [(-200 : ℚ)]
    ∧ ((extractAll (fun _ => "id") 1000 800 [malformedDetY]).map
        (fun it => it.dataUrl.canvasHeight)) = [(-320 : ℚ)]
    ∧ ((-200 : ℚ) < 0) ∧ ((-320 : ℚ) < 0)
    ∧ ¬ ((-200 : ℚ) = 0) ∧ ¬ ((-320 : ℚ) = 0) := by
  refine ⟨?_, ?_, by norm_num, by norm_num, by norm_num, by norm_num⟩
  · norm_num [extractAll, extractAllFrom, cropDetection, malformedDet]
  · norm_num [extractAll, extractAllFrom, cropDetection, malformedDetY]

/-- C2 amended: extraction does not fault on a box malformed by xmax < xmin
or ymax < ymin and still produces the item at its correct index with its
label and description, preserving the 1:1 correspondence, but the computed
width and height are passed through to the crop unclamped (each equals its
formula value): a malformed x order makes the width negative, a malformed y
order makes the height negative, so the malformed crop has a strictly
negative dimension rather than being clamped to a zero-area crop. -/
theorem extraction_malformed_box_amended (gen : Nat → String) (w h : ℚ)
    (dets : List VisualElement) (i : Nat)
    (hi : i < (extractAll gen w h dets).length) (hd : i < dets.length)
    (hmal : (dets.get ⟨i, hd⟩).box_2d.xmax < (dets.get ⟨i, hd⟩).box_2d.xmin
          ∨ (dets.get ⟨i, hd⟩).box_2d.ymax < (dets.get ⟨i, hd⟩).box_2d.ymin)
    (hw : 0 < w) (hh : 0 < h) :
    (extractAll gen w h dets).length = dets.length
    ∧ ((extractAll gen w h dets).get ⟨i, hi⟩).label
        = (dets.get ⟨i, hd⟩).label
    ∧ ((extractAll gen w h dets).get ⟨i, hi⟩).description
        = (dets.get ⟨i, hd⟩).description
    ∧ ((extractAll gen w h dets).get ⟨i, hi⟩).dataUrl.canvasWidth
        = ((dets.get ⟨i, hd⟩).box_2d.xmax - (dets.get ⟨i, hd⟩).box_2d.xmin)
            / 1000 * w
    ∧ ((extractAll gen w h dets).get ⟨i, hi⟩).dataUrl.canvasHeight
        = ((dets.get ⟨i, hd⟩).box_2d.ymax - (dets.get ⟨i, hd⟩).box_2d.ymin)
            / 1000 * h
    ∧ ((dets.get ⟨i, hd⟩).box_2d.xmax < (dets.get ⟨i, hd⟩).box_2d.xmin →
        ((extractAll gen w h dets).get ⟨i, hi⟩).dataUrl.canvasWidth < 0)
    ∧ ((dets.get ⟨i, hd⟩).box_2d.ymax < (dets.get ⟨i, hd⟩).box_2d.ymin →
        ((extractAll gen w h dets).get ⟨i, hi⟩).dataUrl.canvasHeight < 0)
    ∧ (((extractAll gen w h dets).get ⟨i, hi⟩).dataUrl.canvasWidth < 0
        ∨ ((extractAll gen w h dets).get ⟨i, hi⟩).dataUrl.canvasHeight < 0)
    := by
  have hlen := extractAllFrom_length gen w h 0 dets
  have hi0 : i < (extractAllFrom gen w h 0 dets).length := hi
  have hget := extractAllFrom_get gen w h dets 0 i hi0 hd
  have hwneg : (dets.get ⟨i, hd⟩).box_2d.xmax < (dets.get ⟨i, hd⟩).box_2d.xmin
      → ((dets.get ⟨i, hd⟩).box_2d.xmax - (dets.get ⟨i, hd⟩).box_2d.xmin)
          / 1000 * w < 0 := by
    intro hx
    apply mul_neg_of_neg_of_pos _ hw
    apply div_neg_of_neg_of_pos _ (by norm_num)
    exact sub_neg.mpr hx
  have hhneg : (dets.get ⟨i, hd⟩).box_2d.ymax < (dets.get ⟨i, hd⟩).box_2d.ymin
      → ((dets.get ⟨i, hd⟩).box_2d.ymax - (dets.get ⟨i, hd⟩).box_2d.ymin)
          / 1000 * h < 0 := by
    intro hy
    apply mul_neg_of_neg_of_pos _ hh
    apply div_neg_of_neg_of_pos _ (by norm_num)
    exact sub_neg.mpr hy
  refine ⟨hlen, ?_, ?_, ?_, ?_, ?_, ?_, ?_⟩
  · unfold extractAll; rw [hget]
  · unfold extractAll; rw [hget]
  · unfold extractAll; rw [hget]; rfl
  · unfold extractAll; rw [hget]; rfl
  · intro hx; unfold extractAll; rw [hget]; exact hwneg hx
  · intro hy; unfold extractAll; rw [hget]; exact hhneg hy
  · unfold extractAll; rw [hget]
    rcases hmal with hx | hy
    · exact Or.inl (hwneg hx)
    · exact Or.inr (hhneg hy)

/-- Witness for C2 amended at concrete inputs: the x-malformed singleton
list still yields its item at index 0 with a strictly negative crop width,
and the y-malformed singleton list yields its item at index 0 with a
strictly negative crop height. -/
theorem extraction_malformed_box_amended_witness :
    ((extractAll (fun _ => "id") 1000 800 [malformedDet]).get
        ⟨0, by decide⟩).dataUrl.canvasWidth < 0
    ∧ ((extractAll (fun _ => "id") 1000 800 [malformedDetY]).get
        ⟨0, by decide⟩).dataUrl.canvasHeight < 0 :=
  ⟨(extraction_malformed_box_amended (fun _ => "id") 1000 800 [malformedDet]
      0 (by decide) (by decide)
      (Or.inl (by show (300 : ℚ) < 500; norm_num))
      (by norm_num) (by norm_num)).2.2.2.2.2.1
      (by show (300 : ℚ) < 500; norm_num),
   (extraction_malformed_box_amended (fun _ => "id") 1000 800 [malformedDetY]
      0 (by decide) (by decide)
      (Or.inr (by show (200 : ℚ) < 600; norm_num))
      (by norm_num) (by norm_num)).2.2.2.2.2.2.1
      (by show (200 : ℚ) < 600; norm_num)⟩

/-! ## Claims about the detection and explanation wrappers -/

/-- Counterexample for C4: the response text "[1]" is syntactically valid
JSON but violates the required detection schema, yet `detectVisualElements`
returns the parsed non-empty array unchanged instead of an empty detection
sequence; the source applies no schema validation after JSON.parse. -/
theorem detect_schema_unchecked_counterexample :
    detectVisualElements (.ok (some "[1]")) = .arr [.num 1]
    ∧ isValidDetectionList (.arr [.num 1]) = false
    ∧ Json.arr [.num 1] ≠ Json.arr [] := by
  exact ⟨rfl, rfl, by simp⟩

/-- C4 amended: `detectVisualElements` returns the empty detection sequence
when the remote call errors, when the response text is missing or empty, and
when the text is not syntactically valid JSON; a syntactically valid response
is returned exactly as parsed, without any validation against the required
schema.  Errors never propagate: every outcome maps to a plain value. -/
theorem detect_failure_amended :
    detectVisualElements (.error ()) = .arr []
    ∧ detectVisualElements (.ok none) = .arr []
    ∧ detectVisualElements (.ok (some "")) = .arr []
    ∧ (∀ t : String, jsonParse t = .error () →
        detectVisualElements (.ok (some t)) = .arr [])
    ∧ (∀ (t : String) (j : Json), ¬ t = "" → jsonParse t = .ok j →
        detectVisualElements (.ok (some t)) = j) := by
  refine ⟨rfl, rfl, rfl, ?_, ?_⟩
  · intro t ht
    by_cases h0 : t = ""
    · subst h0; rfl
    · simp [detectVisualElements, h0, ht]
  · intro t j h0 hj
    simp [detectVisualElements, h0, hj]

/-- Witness for C4 amended at concrete inputs: unparseable text collapses to
the empty array and valid JSON is passed through as parsed. -/
theorem detect_failure_amended_witness :
    detectVisualElements (.ok (some "x")) = .arr []
    ∧ detectVisualElements (.ok (some "5")) = .num 5 :=
  ⟨detect_failure_amended.2.2.2.1 "x" rfl,
   detect_failure_amended.2.2.2.2 "5" (.num 5) (by decide) rfl⟩

/-- Counterexample for C5: the two failure modes named by the claim produce
two different fixed strings, so there is no single fixed fallback string:
a thrown remote error yields "Error generating explanation." while missing
response text yields "No explanation could be generated.". -/
theorem explain_two_fallbacks_counterexample :
    explainExtractedImage "imgdata" "Chart" (.error ())
        = "Error generating explanation."
    ∧ explainExtractedImage "imgdata" "Chart" (.ok none)
        = "No explanation could be generated."
    ∧ ("Error generating explanation." : String)
        ≠ "No explanation could be generated." :=
  ⟨rfl, rfl, by decide⟩

/-- C5 amended: on failure `explainExtractedImage` returns one of two fixed
fallback strings, each independent of the image payload and label — "Error
generating explanation." when the remote call errors and "No explanation
could be generated." when it returns missing or empty text — and otherwise
returns the response text; no exception ever reaches the caller. -/
theorem explain_fallback_amended (imageBase64 label : String) :
    explainExtractedImage imageBase64 label (.error ())
        = "Error generating explanation."
    ∧ explainExtractedImage imageBase64 label (.ok none)
        = "No explanation could be generated."
    ∧ explainExtractedImage imageBase64 label (.ok (some ""))
        = "No explanation could be generated."
    ∧ ∀ t : String, ¬ t = "" →
        explainExtractedImage imageBase64 label (.ok (some t)) = t := by
  refine ⟨rfl, rfl, rfl, ?_⟩
  intro t ht
  simp [explainExtractedImage, ht]

/-- Witness for C5 amended at a concrete input: non-empty response text is
returned unchanged. -/
theorem explain_fallback_amended_witness :
    explainExtractedImage "d" "l" (.ok (some "text")) = "text" :=
  (explain_fallback_amended "d" "l").2.2.2 "text" (by decide)

/-! ## Claim about the page rasterizer front end -/

/-- C6: with the render engine available, a paginated document resolves the
requested page index to `min (max 1 pageNum) pageCount`, which always lies in
[1, pageCount]; an index below 1 resolves to page 1 and an index above
pageCount resolves to the last page, never failing.  For a plain raster image
the page index is ignored entirely: any two requested indices produce the
same FileReader result. -/
theorem getPageImage_clamps (file : InputFile) (pageNum : Int)
    (himg : strStartsWith file.fileType "image/" = false)
    (hcount : 1 ≤ file.pageCount) :
    getPageImage true file pageNum
        = .ok (.pdfPage (min (max 1 pageNum) file.pageCount))
    ∧ 1 ≤ min (max 1 pageNum) file.pageCount
    ∧ min (max 1 pageNum) file.pageCount ≤ file.pageCount
    ∧ (pageNum < 1 → min (max 1 pageNum) file.pageCount = 1)
    ∧ (file.pageCount < pageNum →
        min (max 1 pageNum) file.pageCount = file.pageCount)
    ∧ ∀ (imgFile : InputFile) (p q : Int),
        strStartsWith imgFile.fileType "image/" = true →
        getPageImage true imgFile p = .ok .imageData
        ∧ getPageImage true imgFile p = getPageImage true imgFile q := by
  refine ⟨by simp [getPageImage, himg], le_min (le_max_left 1 pageNum) hcount,
    min_le_right _ _, ?_, ?_, ?_⟩
  · intro hp
    rw [max_eq_left hp.le, min_eq_left hcount]
  · intro hp
    rw [max_eq_right (le_trans hcount hp.le), min_eq_right hp.le]
  · intro imgFile p q himgFile
    refine ⟨by simp [getPageImage, himgFile], ?_⟩
    simp [getPageImage, himgFile]

/-- Witness for C6 at concrete inputs: page 0 of a ten-page document resolves
to page 1. -/
theorem getPageImage_clamps_witness :
    getPageImage true samplePdfFile 0 = .ok (.pdfPage 1) := by
  have h := getPageImage_clamps samplePdfFile 0 (by decide) (by decide)
  have h1 := h.1
  have hlow := h.2.2.2.1 (by decide)
  rw [hlow] at h1
  exact h1

/-! ## Claims about the scan session state machine -/

/-- Counterexample for C8: a scan that fails during rasterization, started
from a session still holding the previous page image, leaves that page image
in place — the failure path does not clear it, so not all in-progress scan
state is cleared. -/
theorem scan_failure_keeps_page_counterexample :
    (handleScan stalePageState 1 (some samplePdfFile) (.error ()) 1000 800 []
        (fun _ => "u")).final.originalImage = some "previousPage"
    ∧ some "previousPage" ≠ (none : Option String) :=
  ⟨rfl, by simp⟩

/-- C8 amended: on a rasterization failure the catch and finally blocks hide
the preview, clear the loading flag, and leave the item list empty (it was
cleared at scan start), and the caller is alerted with the generic
extraction-failure notice; the original page image is not cleared by the
failure path and keeps whatever value it had.  `handleReset`, by contrast,
clears all four fields. -/
theorem scan_failure_amended (s : ScanState) (pageNumber : Int)
    (f : InputFile) (w h : ℚ) (dets : List VisualElement)
    (gen : Nat → String) :
    handleScan s pageNumber (some f) (.error ()) w h dets gen =
      { final := { isGenerating := false, originalImage := s.originalImage,
                   extractedItems := [], showPreview := false }
        alert := some extractionFailedNotice }
    ∧ handleReset s = { isGenerating := false, originalImage := none,
                        extractedItems := [], showPreview := false } :=
  ⟨rfl, rfl⟩

/-- C9: invoking a scan with no file supplied is a no-op: the final state is
the incoming state, no alert is shown, and the trace of state updates is
empty, so none of the four session fields is modified. -/
theorem handleScan_no_file_noop (s : ScanState) (pageNumber : Int)
    (raster : Except Unit String) (w h : ℚ) (dets : List VisualElement)
    (gen : Nat → String) :
    handleScan s pageNumber none raster w h dets gen
        = { final := s, alert := none }
    ∧ handleScanTrace s pageNumber none raster w h dets gen = [] :=
  ⟨rfl, rfl⟩

/-- C10: in every scan with a file, the third state update — the last one
before rasterization or any remote call begins — leaves the extracted-items
list empty, and at every intermediate state whose loading flag is set the
LivePreview renders no item cards at all, so the visible item list while
scanning is always empty and never shows leftover items. -/
theorem scan_clears_items_before_raster (s : ScanState) (pageNumber : Int)
    (f : InputFile) (raster : Except Unit String) (w h : ℚ)
    (dets : List VisualElement) (gen : Nat → String) :
    (handleScanTrace s pageNumber (some f) raster w h dets gen)[2]?
      = some { isGenerating := true, originalImage := s.originalImage,
               extractedItems := [], showPreview := true }
    ∧ ∀ st ∈ handleScanTrace s pageNumber (some f) raster w h dets gen,
        st.isGenerating = true →
        visibleItems st.isGenerating st.extractedItems = [] := by
  constructor
  · cases raster with
    | error e => rfl
    | ok u => rfl
  · intro st hst hgen
    rw [hgen]
    rfl

/-- Witness for C10 at a concrete input: the first intermediate state of a
scan started from a session holding a leftover item has the loading flag set,
and the preview then renders no item cards even though the state still holds
that leftover item. -/
theorem scan_clears_items_before_raster_witness :
    visibleItems true [junkItem] = [] :=
  (scan_clears_items_before_raster stalePageState 1 samplePdfFile
      (.ok "url") 800 600 [] (fun _ => "u")).2
    { isGenerating := true, originalImage := some "previousPage",
      extractedItems := [junkItem], showPreview := true }
    (List.mem_cons_self _ _) rfl
